import Mathlib

/-!
Verification of the cheque-app roster workflow (src/app.py).

The development shallowly embeds the parts of `app.py` that the claims
concern: the identifier normalizer `clean_id` (lines 19-25), the four
stage masks used by tabs 2-5 (lines 215-217, 281, 354, 395), the
per-row field writes of the five workflow transitions (tab 2 export,
tab 3 confirm/revert, tab 4 revert, tab 5 override, tab 7 edit), the
tab-2 export batch loop with its freshly built id position map
(lines 246-273), the tab-1 import handler (lines 168-203) and the
statistics function `calculate_stats` (lines 85-99).

Spreadsheet cell values are modelled as Lean `String`s (the app reads
everything as text and backfills missing values with the empty string).
The Python string primitives `str.strip()`, `str.upper()`,
`str.endswith(t)` and slicing `s[:-n]` are embedded as the executable
character-list functions `pyStrip`, `pyUpper`, `pyEndsWith` and
`pyDropRight` below, so that every definition evaluates by kernel
reduction.
-/

/-- Embedding of Python `str.strip()`: remove leading and trailing
whitespace characters. -/
def pyStrip (s : String) : String :=
  ⟨(((s.data.dropWhile Char.isWhitespace).reverse.dropWhile
      Char.isWhitespace).reverse)⟩

/-- Embedding of Python `str.upper()` for the ASCII letters the app
compares (`y`/`Y`). -/
def pyUpper (s : String) : String :=
  ⟨s.data.map Char.toUpper⟩

/-- Embedding of Python `str.endswith(t)`. -/
def pyEndsWith (s t : String) : Bool :=
  t.data.isSuffixOf s.data

/-- Embedding of Python slicing `s[:-n]` (for the `n` characters the
app drops; on strings of length below `n` Python would return the empty
string, and so does this function). -/
def pyDropRight (s : String) (n : Nat) : String :=
  ⟨s.data.take (s.data.length - n)⟩

/-- Embedding of `clean_id` (app.py lines 19-25): `None` becomes `""`,
otherwise the value is converted to a string, stripped of surrounding
whitespace, and a trailing literal `".0"` is removed. -/
def clean_id : Option String → String
  | none => ""
  | some v =>
    let s := pyStrip v
    if s = "" then ""
    else if pyEndsWith s ".0" then pyDropRight s 2
    else s

/-- Mirror of the spec's description of the normalizer (spec section 4.1):
convert to string; if absent, return empty; trim surrounding whitespace;
if the string ends with the literal suffix `".0"`, strip that suffix. -/
def normalize_spec : Option String → String
  | none => ""
  | some v =>
    let s := pyStrip v
    if pyEndsWith s ".0" then pyDropRight s 2 else s

/-- One recipient row of a roster, with the columns of `app.py`
(REQUIRED_COLS followed by SYSTEM_COLS); field names follow the spec's
data model: `id` is `ID序號`, `sequenceNumber` is `編號`, `nameLocal` and
`nameLatin` are the two name columns, `internshipDays` is `實習日數`,
`reflectionMeetingFlag` is `反思會`, `reflectionFormFlag` is `反思表`,
`guardian` is `家長/監護人`, `collectedFlag` is `Collected`,
`documentGeneratedDate` is `DocGeneratedDate`, `collectedDate` is
`CollectedDate`, `responsibleStaff` is `ResponsibleStaff`. -/
structure Row where
  id : String
  sequenceNumber : String
  nameLocal : String
  nameLatin : String
  phone : String
  internshipDays : String
  reflectionMeetingFlag : String
  reflectionFormFlag : String
  guardian : String
  collectedFlag : String
  documentGeneratedDate : String
  collectedDate : String
  responsibleStaff : String
deriving DecidableEq, Repr

/-- Tab 2 filter (app.py lines 215-217): both reflection flags strip to
uppercase `Y` and `DocGeneratedDate` is the empty string. -/
def mask_ready (r : Row) : Bool :=
  (pyUpper (pyStrip r.reflectionMeetingFlag) == "Y") &&
  (pyUpper (pyStrip r.reflectionFormFlag) == "Y") &&
  (r.documentGeneratedDate == "")

/-- Tab 3 filter (app.py line 281): `DocGeneratedDate` non-empty and
`Collected` different from the exact string `Y`. -/
def mask_conf (r : Row) : Bool :=
  (r.documentGeneratedDate != "") && (r.collectedFlag != "Y")

/-- Tab 4 filter (app.py line 354): `Collected` equal to the exact
string `Y`. -/
def mask_done (r : Row) : Bool :=
  r.collectedFlag == "Y"

/-- Tab 5 filter (app.py line 395): some reflection flag does not strip
to uppercase `Y`, and `DocGeneratedDate` is empty. -/
def mask_fail (r : Row) : Bool :=
  ((pyUpper (pyStrip r.reflectionMeetingFlag) != "Y") ||
   (pyUpper (pyStrip r.reflectionFormFlag) != "Y")) &&
  (r.documentGeneratedDate == "")

/-- How many of the four stage masks hold on a row. -/
def stage_count (r : Row) : Nat :=
  (if mask_ready r then 1 else 0) + (if mask_conf r then 1 else 0) +
  (if mask_done r then 1 else 0) + (if mask_fail r then 1 else 0)

/-- Per-row effect of the tab 2 export handler (app.py lines 263-264):
`DocGeneratedDate` receives today's date and `ResponsibleStaff` the
acting staff name. -/
def exportRow (today staff : String) (r : Row) : Row :=
  { r with documentGeneratedDate := today, responsibleStaff := staff }

/-- Per-row effect of the tab 3 revert handler (app.py lines 345-346):
`DocGeneratedDate` and `ResponsibleStaff` are both cleared. -/
def revertExportRow (r : Row) : Row :=
  { r with documentGeneratedDate := "", responsibleStaff := "" }

/-- Per-row effect of the tab 3 confirm handler (app.py lines 313-314):
`Collected` becomes `Y` and `CollectedDate` the current timestamp. -/
def confirmCollectedRow (now : String) (r : Row) : Row :=
  { r with collectedFlag := "Y", collectedDate := now }

/-- Per-row effect of the tab 4 revoke handler (app.py lines 386-387):
`Collected` and `CollectedDate` are both cleared. -/
def revertCollectedRow (r : Row) : Row :=
  { r with collectedFlag := "", collectedDate := "" }

/-- Per-row effect of the tab 5 force-approve handler (app.py line 426):
both reflection flags become `Y`. -/
def overrideApproveRow (r : Row) : Row :=
  { r with reflectionMeetingFlag := "Y", reflectionFormFlag := "Y" }

/-- Per-row effect of the tab 7 editor (app.py lines 454-472): every
column except `ID序號` and the four system columns may be overwritten
(`disabled_cols` at line 455 locks id, Collected, DocGeneratedDate,
CollectedDate, ResponsibleStaff). -/
def editFieldsRow (seq nl nn ph days m f g : String) (r : Row) : Row :=
  { r with sequenceNumber := seq, nameLocal := nl, nameLatin := nn,
           phone := ph, internshipDays := days,
           reflectionMeetingFlag := m, reflectionFormFlag := f,
           guardian := g }

/-- Helper: the per-row content of `clean_id (some y)` when `y` is
already stripped and does not end in `".0"`. -/
theorem clean_id_of_stable (y : String)
    (h1 : pyEndsWith y ".0" = false) (h2 : pyStrip y = y) :
    clean_id (some y) = y := by
  simp only [clean_id]
  rw [h2]
  by_cases hy : y = ""
  · simp [hy]
  · simp [hy, h1]

/-- Claim C4 counterexample: the normalizer is not idempotent on
`"1.0.0"` — one application yields `"1.0"`, a second yields `"1"`. -/
theorem clean_id_not_idempotent :
    clean_id (some (clean_id (some "1.0.0"))) ≠ clean_id (some "1.0.0") := by
  decide

/-- Claim C4 (amended): the normalizer is idempotent on every input
whose normalized form does not itself end in `".0"` and carries no
surrounding whitespace. -/
theorem clean_id_idempotent_of_stable (x : Option String)
    (h1 : pyEndsWith (clean_id x) ".0" = false)
    (h2 : pyStrip (clean_id x) = clean_id x) :
    clean_id (some (clean_id x)) = clean_id x :=
  clean_id_of_stable (clean_id x) h1 h2

/-- Witness for the amended C4 at the concrete input `"101.0"`. -/
theorem clean_id_idempotent_witness :
    clean_id (some (clean_id (some "101.0"))) = clean_id (some "101.0") :=
  clean_id_idempotent_of_stable (some "101.0") (by decide) (by decide)

/-- Claim C5: `clean_id` implements the spec's algorithm — it agrees
with `normalize_spec` on every input, and on the spec's sample inputs
it returns `"101"` for `"101"`, `"101.0"`, `" 101 "` and the empty
string for `none`, `""` and `"   "`. -/
theorem clean_id_implements_spec :
    (∀ v, clean_id v = normalize_spec v) ∧
    clean_id (some "101") = "101" ∧
    clean_id (some "101.0") = "101" ∧
    clean_id (some " 101 ") = "101" ∧
    clean_id none = "" ∧
    clean_id (some "") = "" ∧
    clean_id (some "   ") = "" := by
  refine ⟨?_, by decide, by decide, by decide, rfl, by decide, by decide⟩
  intro v
  cases v with
  | none => rfl
  | some v =>
    simp only [clean_id, normalize_spec]
    by_cases h : pyStrip v = ""
    · rw [h]; rfl
    · simp [h]

/-- A row whose descriptive fields are empty, with the given reflection
flags, `DocGeneratedDate` and `Collected` values. -/
def mkRow (m f doc coll : String) : Row :=
  { id := "", sequenceNumber := "", nameLocal := "", nameLatin := "",
    phone := "", internshipDays := "", reflectionMeetingFlag := m,
    reflectionFormFlag := f, guardian := "", collectedFlag := coll,
    documentGeneratedDate := doc, collectedDate := "",
    responsibleStaff := "" }

/-- Claim C1 counterexample: on the field combination with both
reflection flags `Y`, empty `DocGeneratedDate` and `Collected = "Y"`,
two of the four stage masks hold (`mask_ready` and `mask_done`), so the
predicates are not mutually exclusive over all combinations. -/
theorem stage_count_two :
    stage_count (mkRow "Y" "Y" "" "Y") = 2 ∧
    mask_ready (mkRow "Y" "Y" "" "Y") = true ∧
    mask_done (mkRow "Y" "Y" "" "Y") = true := by
  decide

/-- Claim C1 (amended): on every row satisfying the data-model invariant
`collectedFlag = "Y" → documentGeneratedDate ≠ ""`, exactly one of the
four stage masks holds. -/
theorem stage_partition (r : Row)
    (hinv : r.collectedFlag = "Y" → r.documentGeneratedDate ≠ "") :
    stage_count r = 1 := by
  unfold stage_count mask_ready mask_conf mask_done mask_fail
  by_cases hdoc : r.documentGeneratedDate = ""
  · have hcol : r.collectedFlag ≠ "Y" := fun h => hinv h hdoc
    by_cases hm : pyUpper (pyStrip r.reflectionMeetingFlag) = "Y" <;>
    by_cases hf : pyUpper (pyStrip r.reflectionFormFlag) = "Y" <;>
      simp [hdoc, hcol, hm, hf]
  · by_cases hcol : r.collectedFlag = "Y" <;> simp [hdoc, hcol]

/-- Witness for the amended C1 at a concrete eligible pending row. -/
theorem stage_partition_witness :
    stage_count (mkRow "Y" "Y" "" "") = 1 :=
  stage_partition (mkRow "Y" "Y" "" "") (by decide)

/-- Claim C2 counterexample: the row with both flags `Y`, empty
`DocGeneratedDate` and `Collected = "Y"` is selected by the tab-2 mask
(EligiblePendingExport), yet after the Export writes it does not
classify as AwaitingCollection, because `Collected` is still `"Y"`. -/
theorem export_not_awaiting :
    mask_ready (mkRow "Y" "Y" "" "Y") = true ∧
    mask_conf (exportRow "2026-10-12" "Alice" (mkRow "Y" "Y" "" "Y")) = false := by
  decide

/-- Claim C2 (amended): on a tab-2 row that is not simultaneously
Collected, Export writes the date and the staff name together, after
which the row classifies as AwaitingCollection; Revert-Export then
clears both fields, after which it classifies as EligiblePendingExport
again. -/
theorem export_then_revert (r : Row) (today staff : String)
    (hr : mask_ready r = true) (hc : r.collectedFlag ≠ "Y")
    (ht : today ≠ "") :
    (exportRow today staff r).documentGeneratedDate = today ∧
    (exportRow today staff r).responsibleStaff = staff ∧
    mask_conf (exportRow today staff r) = true ∧
    (revertExportRow (exportRow today staff r)).documentGeneratedDate = "" ∧
    (revertExportRow (exportRow today staff r)).responsibleStaff = "" ∧
    mask_ready (revertExportRow (exportRow today staff r)) = true := by
  simp only [mask_ready, Bool.and_eq_true, beq_iff_eq] at hr
  obtain ⟨⟨hm, hf⟩, hdoc⟩ := hr
  refine ⟨rfl, rfl, ?_, rfl, rfl, ?_⟩
  · simp [mask_conf, exportRow, ht, hc]
  · simp [mask_ready, revertExportRow, exportRow, hm, hf]

/-- Witness for the amended C2 at a concrete eligible pending row. -/
theorem export_then_revert_witness :
    (exportRow "2026-10-12" "Alice" (mkRow "Y" "Y" "" "")).documentGeneratedDate = "2026-10-12" ∧
    (exportRow "2026-10-12" "Alice" (mkRow "Y" "Y" "" "")).responsibleStaff = "Alice" ∧
    mask_conf (exportRow "2026-10-12" "Alice" (mkRow "Y" "Y" "" "")) = true ∧
    (revertExportRow (exportRow "2026-10-12" "Alice" (mkRow "Y" "Y" "" ""))).documentGeneratedDate = "" ∧
    (revertExportRow (exportRow "2026-10-12" "Alice" (mkRow "Y" "Y" "" ""))).responsibleStaff = "" ∧
    mask_ready (revertExportRow (exportRow "2026-10-12" "Alice" (mkRow "Y" "Y" "" ""))) = true :=
  export_then_revert (mkRow "Y" "Y" "" "") "2026-10-12" "Alice"
    (by decide) (by decide) (by decide)

/-- Claim C8: on a tab-2 (EligiblePendingExport) row, Export followed by
Revert-Export followed by Export with the final call's date and staff
values produces exactly the row a single Export with those values
produces. -/
theorem export_roundtrip (r : Row) (t1 s1 t2 s2 : String)
    (h : mask_ready r = true) :
    exportRow t2 s2 (revertExportRow (exportRow t1 s1 r)) =
      exportRow t2 s2 r := by
  cases r
  rfl

/-- Witness for C8 at a concrete eligible pending row. -/
theorem export_roundtrip_witness :
    exportRow "2026-10-13" "Bob"
        (revertExportRow (exportRow "2026-10-12" "Alice" (mkRow "Y" "Y" "" ""))) =
      exportRow "2026-10-13" "Bob" (mkRow "Y" "Y" "" "") :=
  export_roundtrip (mkRow "Y" "Y" "" "") "2026-10-12" "Alice" "2026-10-13" "Bob"
    (by decide)

/-- Embedding of the `id_map` construction loop (app.py lines 250-254):
enumerate the raw identifier column, skip the header at index 0, and
assign `clean_id val ↦ r_idx + 1`, later assignments overwriting
earlier ones exactly as the Python dict does.  `lookup_from tid i l acc`
processes the cells `l` whose first element sits at enumeration index
`i`, with `acc` the binding for `tid` accumulated so far. -/
def lookup_from (tid : String) : Nat → List String → Option Nat → Option Nat
  | _, [], acc => acc
  | i, v :: rest, acc =>
    lookup_from tid (i + 1) rest
      (if i = 0 then acc
       else if clean_id (some v) = tid then some (i + 1) else acc)

/-- The position the tab-2/3/4/5 handlers find for a normalized id:
the row number bound to `tid` in the freshly built `id_map`, or `none`
when `tid` is not a key of the map. -/
def id_map_lookup (raw_ids : List String) (tid : String) : Option Nat :=
  lookup_from tid 0 raw_ids none

/-- Output of one tab-2 export batch: the sequence of single-cell
writes issued to the worksheet (row number, column number, value), and
the accumulated export records `ex_list` (the matched row together with
the injected staff name and date), in processing order. -/
structure ExportResult where
  writes : List (Nat × Nat × String)
  ex_list : List (Row × String × String)
deriving DecidableEq, Repr

/-- Embedding of the tab-2 export batch loop (app.py lines 256-266):
for each selected row in order, normalize its id; if the id is a key of
the freshly built position map, write today's date into the
`DocGeneratedDate` column and the staff name into the
`ResponsibleStaff` column of that row and append the record to
`ex_list`; otherwise do nothing for the row and continue. -/
def tab2_batch (raw_ids : List String) (c_doc c_staff : Nat)
    (today staff : String) : List Row → ExportResult
  | [] => { writes := [], ex_list := [] }
  | row :: rest =>
    match id_map_lookup raw_ids (clean_id (some row.id)) with
    | some r_num =>
      let res := tab2_batch raw_ids c_doc c_staff today staff rest
      { writes := (r_num, c_doc, today) :: (r_num, c_staff, staff) :: res.writes,
        ex_list := (row, staff, today) :: res.ex_list }
    | none => tab2_batch raw_ids c_doc c_staff today staff rest

/-- The cell writes a single selected row contributes when it matches
position `p` (and nothing when it does not match). -/
def row_writes (c_doc c_staff : Nat) (today staff : String)
    (raw_ids : List String) (row : Row) : List (Nat × Nat × String) :=
  match id_map_lookup raw_ids (clean_id (some row.id)) with
  | some p => [(p, c_doc, today), (p, c_staff, staff)]
  | none => []

/-- Whether a selected row's normalized id is a key of the position
map built from `raw_ids`. -/
def row_matched (raw_ids : List String) (row : Row) : Bool :=
  (id_map_lookup raw_ids (clean_id (some row.id))).isSome

/-- The batch loop's writes are exactly the concatenation of the
per-row writes of the selected rows, in order. -/
theorem tab2_batch_writes (raw_ids : List String) (c_doc c_staff : Nat)
    (today staff : String) (sel : List Row) :
    (tab2_batch raw_ids c_doc c_staff today staff sel).writes =
      sel.flatMap (row_writes c_doc c_staff today staff raw_ids) := by
  induction sel with
  | nil => rfl
  | cons row rest ih =>
    simp only [tab2_batch, List.flatMap_cons, row_writes]
    cases h : id_map_lookup raw_ids (clean_id (some row.id)) with
    | some p => simp [h, ih]
    | none => simp [h, ih]

/-- The batch loop's export records are exactly the matched selected
rows, in order, each paired with the staff name and date. -/
theorem tab2_batch_ex_list (raw_ids : List String) (c_doc c_staff : Nat)
    (today staff : String) (sel : List Row) :
    (tab2_batch raw_ids c_doc c_staff today staff sel).ex_list =
      (sel.filter (row_matched raw_ids)).map (fun row => (row, staff, today)) := by
  induction sel with
  | nil => rfl
  | cons row rest ih =>
    simp only [tab2_batch]
    cases h : id_map_lookup raw_ids (clean_id (some row.id)) with
    | some p =>
      have hm : row_matched raw_ids row = true := by
        simp [row_matched, h]
      simp [h, ih, List.filter_cons, hm]
    | none =>
      have hm : row_matched raw_ids row = false := by
        simp [row_matched, h]
      simp [h, ih, List.filter_cons, hm]

/-- A tab-2 row (flags `Y`, no system fields set) carrying the given
identifier. -/
def mkRowId (i : String) : Row :=
  { mkRow "Y" "Y" "" "" with id := i }

/-- Claim C3 counterexample: submitting the batch of five selected rows
`101, 102, 103, 201, 202` against a store holding only `101, 102, 103`
produces an output identical to submitting only the three matched rows —
the engine's entire observable result (cell writes and export records)
contains no report of the two unmatched rows, so they are not "reported
in the unmatched set"; only three rows are applied. -/
theorem tab2_batch_no_unmatched_report :
    tab2_batch ["ID序號", "101", "102", "103"] 11 13 "2026-10-12" "Alice"
        [mkRowId "101", mkRowId "102", mkRowId "103", mkRowId "201", mkRowId "202"] =
      tab2_batch ["ID序號", "101", "102", "103"] 11 13 "2026-10-12" "Alice"
        [mkRowId "101", mkRowId "102", mkRowId "103"] ∧
    (tab2_batch ["ID序號", "101", "102", "103"] 11 13 "2026-10-12" "Alice"
        [mkRowId "101", mkRowId "102", mkRowId "103", mkRowId "201", mkRowId "202"]).ex_list.length = 3 := by
  decide

/-- Claim C3 (amended): every selected row is attempted exactly once —
the batch's cell writes are exactly the per-row writes of the matched
rows in order (an unmatched row contributes none and stops nothing),
and the applied records are exactly the matched rows in order; on the
concrete batch of five selected rows of which two ids are absent,
exactly three rows are applied and only the three matched rows' two
cells each are written.  Unmatched rows are skipped silently rather
than reported. -/
theorem tab2_batch_partial_success :
    (∀ (raw_ids : List String) (c_doc c_staff : Nat) (today staff : String)
        (sel : List Row),
      (tab2_batch raw_ids c_doc c_staff today staff sel).writes =
        sel.flatMap (row_writes c_doc c_staff today staff raw_ids) ∧
      (tab2_batch raw_ids c_doc c_staff today staff sel).ex_list =
        (sel.filter (row_matched raw_ids)).map (fun row => (row, staff, today))) ∧
    (tab2_batch ["ID序號", "101", "102", "103"] 11 13 "2026-10-12" "Alice"
        [mkRowId "101", mkRowId "102", mkRowId "103", mkRowId "201", mkRowId "202"]).ex_list.length = 3 ∧
    (tab2_batch ["ID序號", "101", "102", "103"] 11 13 "2026-10-12" "Alice"
        [mkRowId "101", mkRowId "102", mkRowId "103", mkRowId "201", mkRowId "202"]).writes =
      [(2, 11, "2026-10-12"), (2, 13, "Alice"),
       (3, 11, "2026-10-12"), (3, 13, "Alice"),
       (4, 11, "2026-10-12"), (4, 13, "Alice")] := by
  refine ⟨fun raw_ids c_doc c_staff today staff sel => ⟨?_, ?_⟩, by decide, by decide⟩
  · exact tab2_batch_writes raw_ids c_doc c_staff today staff sel
  · exact tab2_batch_ex_list raw_ids c_doc c_staff today staff sel

/-- Helper: the id-map loop leaves the accumulator untouched on a cell
list none of whose entries normalizes to the key, when enumeration has
passed the header. -/
theorem lookup_from_stays (tid : String) (l : List String) :
    ∀ (i : Nat) (acc : Option Nat), 1 ≤ i →
      (∀ v ∈ l, clean_id (some v) ≠ tid) →
      lookup_from tid i l acc = acc := by
  induction l with
  | nil => intro i acc _ _; rfl
  | cons v rest ih =>
    intro i acc hi h
    have hv : clean_id (some v) ≠ tid := h v (by simp)
    have hne : i ≠ 0 := by omega
    simp only [lookup_from, hne, if_false, hv]
    exact ih (i + 1) acc (by omega) (fun w hw => h w (by simp [hw]))

/-- Helper: a key that no data cell (every cell after the header)
normalizes to is absent from the freshly built position map. -/
theorem id_map_lookup_none (raw_ids : List String) (tid : String)
    (h : ∀ v ∈ raw_ids.drop 1, clean_id (some v) ≠ tid) :
    id_map_lookup raw_ids tid = none := by
  cases raw_ids with
  | nil => rfl
  | cons hd rest =>
    simp only [id_map_lookup, lookup_from, if_pos rfl]
    exact lookup_from_stays tid rest 1 none (by omega) (by simpa using h)

/-- Claim C6 counterexample: when the external identifier column itself
contains a blank data cell, a selected row whose id normalizes to the
empty string IS matched against that cell's position — here the
whitespace-only id `"   "` (which normalizes to `""`) causes two cell
writes into row 3, the position of the blank external cell. -/
theorem empty_id_matches_blank_cell :
    clean_id (some "   ") = "" ∧
    (tab2_batch ["ID序號", "101", ""] 11 13 "2026-10-12" "Alice"
        [mkRowId "   "]).writes =
      [(3, 11, "2026-10-12"), (3, 13, "Alice")] := by
  decide

/-- Claim C6 (amended): when no data cell of the external identifier
column normalizes to the empty string, a selected row whose id
normalizes to empty is never matched: its presence anywhere in the
batch changes neither the cell writes nor the export records. -/
theorem empty_id_never_matched (raw_ids : List String)
    (c_doc c_staff : Nat) (today staff : String) (row : Row)
    (sel1 sel2 : List Row)
    (hdata : ∀ v ∈ raw_ids.drop 1, clean_id (some v) ≠ "")
    (hrow : clean_id (some row.id) = "") :
    tab2_batch raw_ids c_doc c_staff today staff (sel1 ++ row :: sel2) =
      tab2_batch raw_ids c_doc c_staff today staff (sel1 ++ sel2) := by
  have hnone : id_map_lookup raw_ids "" = none :=
    id_map_lookup_none raw_ids "" hdata
  induction sel1 with
  | nil =>
    simp only [List.nil_append, tab2_batch, hrow, hnone]
  | cons r rest ih =>
    simp only [List.cons_append, tab2_batch]
    cases h : id_map_lookup raw_ids (clean_id (some r.id)) with
    | some p => simp [h, ih]
    | none => simp [h, ih]

/-- Witness for the amended C6: against a store whose only data cell is
`"101"`, the whitespace-only id causes no writes at all. -/
theorem empty_id_never_matched_witness :
    tab2_batch ["ID序號", "101"] 11 13 "2026-10-12" "Alice"
        ([] ++ mkRowId "   " :: []) =
      tab2_batch ["ID序號", "101"] 11 13 "2026-10-12" "Alice" ([] ++ []) :=
  empty_id_never_matched ["ID序號", "101"] 11 13 "2026-10-12" "Alice"
    (mkRowId "   ") [] [] (by decide) (by decide)

/-- The spec's paired-field invariant on a row: `DocGeneratedDate` and
`ResponsibleStaff` are non-empty together, and `Collected = "Y"` holds
exactly when `CollectedDate` is non-empty. -/
def pairInv (r : Row) : Prop :=
  ((r.documentGeneratedDate ≠ "") ↔ (r.responsibleStaff ≠ "")) ∧
  ((r.collectedFlag = "Y") ↔ (r.collectedDate ≠ ""))

/-- Rows mutated only through the app's transitions: a freshly imported
row (system columns initialized empty, app.py line 184), tab-2 export
with a non-empty date and staff name (the app refuses to run with an
empty staff name, lines 144-146, and the date is a formatted
`datetime.now()`, line 230), tab-3 revert, tab-3 confirm with a
non-empty timestamp (line 294), tab-4 revoke, tab-5 force-approve, and
the tab-7 editor which cannot touch the locked system columns. -/
inductive Reachable : Row → Prop
  | init (id seq nl nn ph days m f g : String) :
      Reachable { id := id, sequenceNumber := seq, nameLocal := nl,
                  nameLatin := nn, phone := ph, internshipDays := days,
                  reflectionMeetingFlag := m, reflectionFormFlag := f,
                  guardian := g, collectedFlag := "",
                  documentGeneratedDate := "", collectedDate := "",
                  responsibleStaff := "" }
  | doExport (r : Row) (today staff : String) :
      Reachable r → today ≠ "" → staff ≠ "" →
      Reachable (exportRow today staff r)
  | doRevertExport (r : Row) :
      Reachable r → Reachable (revertExportRow r)
  | doConfirm (r : Row) (now : String) :
      Reachable r → now ≠ "" → Reachable (confirmCollectedRow now r)
  | doRevertCollected (r : Row) :
      Reachable r → Reachable (revertCollectedRow r)
  | doOverride (r : Row) :
      Reachable r → Reachable (overrideApproveRow r)
  | doEdit (r : Row) (seq nl nn ph days m f g : String) :
      Reachable r → Reachable (editFieldsRow seq nl nn ph days m f g r)

/-- Claim C7: every row reachable through the defined transitions
satisfies the paired-field invariant — each transition writes or clears
each pair together. -/
theorem paired_fields_invariant (r : Row) (h : Reachable r) : pairInv r := by
  induction h with
  | init id seq nl nn ph days m f g => simp [pairInv]
  | doExport r today staff hr ht hs ih =>
    simp only [pairInv, exportRow] at ih ⊢
    exact ⟨⟨fun _ => hs, fun _ => ht⟩, ih.2⟩
  | doRevertExport r hr ih =>
    simp only [pairInv, revertExportRow] at ih ⊢
    simpa using ih.2
  | doConfirm r now hr hn ih =>
    simp only [pairInv, confirmCollectedRow] at ih ⊢
    exact ⟨ih.1, by simp [hn]⟩
  | doRevertCollected r hr ih =>
    simp only [pairInv, revertCollectedRow] at ih ⊢
    simpa using ih.1
  | doOverride r hr ih =>
    simpa only [pairInv, overrideApproveRow] using ih
  | doEdit r seq nl nn ph days m f g hr ih =>
    simpa only [pairInv, editFieldsRow] using ih

/-- Witness for C7: the invariant holds on a freshly imported eligible
row after one Export. -/
theorem paired_fields_invariant_witness :
    pairInv (exportRow "2026-10-12" "Alice" (mkRow "Y" "Y" "" "")) :=
  paired_fields_invariant _
    (Reachable.doExport (mkRow "Y" "Y" "" "") "2026-10-12" "Alice"
      (Reachable.init "" "" "" "" "" "" "Y" "Y" "")
      (by decide) (by decide))

/-- The nine required column names of app.py line 14, in fixed order. -/
def REQUIRED_COLS : List String :=
  ["ID序號", "編號", "姓名(中文)", "姓名(英文)", "電話", "實習日數",
   "反思會", "反思表", "家長/監護人"]

/-- The four system column names of app.py line 13. -/
def SYSTEM_COLS : List String :=
  ["Collected", "DocGeneratedDate", "CollectedDate", "ResponsibleStaff"]

/-- A named worksheet as the import handler writes it: a header row and
string-valued data rows. -/
structure Roster where
  header : List String
  rows : List (List String)
deriving DecidableEq, Repr

/-- An uploaded tabular file: its column names in order and its data
rows, each row positionally aligned with the columns. -/
structure UploadedTable where
  cols : List String
  rows : List (List String)
deriving DecidableEq, Repr

/-- One data row as the import handler shapes it (app.py lines
175-186): the first nine cells are kept positionally (the first one
passed through `clean_id`), excess cells are dropped, and the four
system columns are appended with the empty string. -/
def mapped_row (r : List String) : List String :=
  (match r.take 9 with
   | [] => []
   | x :: rest => clean_id (some x) :: rest) ++ ["", "", "", ""]

/-- The roster the import handler builds from an uploaded table with at
least nine columns. -/
def roster_of_upload (t : UploadedTable) : Roster :=
  { header := REQUIRED_COLS ++ SYSTEM_COLS,
    rows := t.rows.map mapped_row }

/-- Embedding of the tab-1 create-and-upload handler (app.py lines
168-203): the handler returns the (possibly unchanged) collection of
worksheets together with the error message it displays, if any.  A
missing file or empty name, a name collision, and a table with fewer
than nine columns each leave the store untouched; otherwise a new
worksheet holding the shaped rows is appended. -/
def tab1_upload (sheet_names : List String)
    (store : List (String × Roster)) (name : String)
    (file : Option UploadedTable) :
    (List (String × Roster)) × Option String :=
  match file with
  | none => (store, some "請填寫名稱並選擇檔案")
  | some t =>
    if name = "" then (store, some "請填寫名稱並選擇檔案")
    else if sheet_names.contains name then (store, some "名稱已存在！")
    else if 9 ≤ t.cols.length then
      (store ++ [(name, roster_of_upload t)], none)
    else (store, some "欄位不足")

/-- Claim C9: importing a table with fewer than nine columns fails with
the handler's error and leaves the worksheet store untouched; with at
least nine columns the upload appends exactly one new roster whose
header is the nine required columns followed by the four system
columns, and whose data rows keep the first nine cells positionally
with the system cells initialized empty. -/
theorem tab1_upload_contract (sheet_names : List String)
    (store : List (String × Roster)) (name : String) (t : UploadedTable)
    (hname : name ≠ "") (hfresh : sheet_names.contains name = false) :
    (t.cols.length < 9 →
      tab1_upload sheet_names store name (some t) = (store, some "欄位不足")) ∧
    (9 ≤ t.cols.length →
      tab1_upload sheet_names store name (some t) =
        (store ++ [(name, roster_of_upload t)], none) ∧
      (roster_of_upload t).header = REQUIRED_COLS ++ SYSTEM_COLS ∧
      (roster_of_upload t).rows = t.rows.map mapped_row) := by
  have hmem : name ∉ sheet_names := by simpa using hfresh
  constructor
  · intro hlt
    have hge : ¬ 9 ≤ t.cols.length := by omega
    simp [tab1_upload, hname, hmem, hge]
  · intro hge
    refine ⟨?_, rfl, rfl⟩
    simp [tab1_upload, hname, hmem, hge]

/-- Witness for C9: a two-column upload is rejected with the handler's
error and the store stays empty. -/
theorem tab1_upload_contract_witness :
    tab1_upload ["Sheet1"] [] "2024_第一期"
        (some { cols := ["c1", "c2"], rows := [] }) =
      ([], some "欄位不足") :=
  (tab1_upload_contract ["Sheet1"] [] "2024_第一期"
      { cols := ["c1", "c2"], rows := [] }
      (by decide) (by decide)).1 (by decide)

/-- The counters `calculate_stats` returns (app.py lines 93-99):
`total` is `總人數`, `pendingExport` is `待匯出`, `awaitingCollection`
is `待領取`, `completed` is `已完成`, `notEligible` is `不符資格`. -/
structure Stats where
  total : Nat
  pendingExport : Nat
  awaitingCollection : Nat
  completed : Nat
  notEligible : Nat
deriving DecidableEq, Repr

/-- The `待匯出` predicate of `calculate_stats` (app.py line 95):
eligible (both flags strip-uppercase to `Y`) and the STRIPPED
`DocGeneratedDate` is empty. -/
def stat_ready (r : Row) : Bool :=
  (pyUpper (pyStrip r.reflectionMeetingFlag) == "Y") &&
  (pyUpper (pyStrip r.reflectionFormFlag) == "Y") &&
  (pyStrip r.documentGeneratedDate == "")

/-- The `待領取` predicate of `calculate_stats` (app.py line 96):
stripped `DocGeneratedDate` non-empty and strip-uppercased `Collected`
different from `Y`. -/
def stat_conf (r : Row) : Bool :=
  (pyStrip r.documentGeneratedDate != "") &&
  (pyUpper (pyStrip r.collectedFlag) != "Y")

/-- The `已完成` predicate of `calculate_stats` (app.py line 97):
strip-uppercased `Collected` equal to `Y`. -/
def stat_done (r : Row) : Bool :=
  pyUpper (pyStrip r.collectedFlag) == "Y"

/-- The `不符資格` predicate of `calculate_stats` (app.py line 98):
not eligible and the stripped `DocGeneratedDate` empty. -/
def stat_fail (r : Row) : Bool :=
  (!((pyUpper (pyStrip r.reflectionMeetingFlag) == "Y") &&
     (pyUpper (pyStrip r.reflectionFormFlag) == "Y"))) &&
  (pyStrip r.documentGeneratedDate == "")

/-- Embedding of `calculate_stats` (app.py lines 85-99) on a roster
with the full column schema (on the empty roster every counter is 0,
exactly as the guard at line 86 returns). -/
def calculate_stats (df : List Row) : Stats :=
  { total := df.length,
    pendingExport := df.countP stat_ready,
    awaitingCollection := df.countP stat_conf,
    completed := df.countP stat_done,
    notEligible := df.countP stat_fail }

/-- Helper: on a row whose `Collected` value is already stripped and
uppercased and whose `DocGeneratedDate` is already stripped, each
statistics predicate coincides with the corresponding tab mask. -/
theorem stat_eq_mask (r : Row)
    (h1 : pyUpper (pyStrip r.collectedFlag) = r.collectedFlag)
    (h2 : pyStrip r.documentGeneratedDate = r.documentGeneratedDate) :
    stat_ready r = mask_ready r ∧ stat_conf r = mask_conf r ∧
    stat_done r = mask_done r ∧ stat_fail r = mask_fail r := by
  refine ⟨?_, ?_, ?_, ?_⟩
  · simp only [stat_ready, mask_ready, h2]
  · simp only [stat_conf, mask_conf, h1, h2]
  · simp only [stat_done, mask_done, h1]
  · simp only [stat_fail, mask_fail, h2, Bool.not_and, bne]

/-- Claim C10 counterexample: the two classifiers disagree on a roster
whose single row stores the lowercase collected flag `"y"`:
`calculate_stats` counts it as `已完成` while the tab-4 mask does not
select it. -/
theorem stats_masks_disagree :
    (calculate_stats [mkRow "Y" "Y" "" "y"]).completed = 1 ∧
    ([mkRow "Y" "Y" "" "y"].countP mask_done) = 0 := by
  decide

/-- Claim C10 (amended): on every roster whose `Collected` cells are
already stripped and uppercased and whose `DocGeneratedDate` cells are
already stripped, the four counters of `calculate_stats` equal the
number of rows the corresponding tab masks select. -/
theorem stats_match_masks (df : List Row)
    (h : ∀ r ∈ df,
      pyUpper (pyStrip r.collectedFlag) = r.collectedFlag ∧
      pyStrip r.documentGeneratedDate = r.documentGeneratedDate) :
    (calculate_stats df).pendingExport = df.countP mask_ready ∧
    (calculate_stats df).awaitingCollection = df.countP mask_conf ∧
    (calculate_stats df).completed = df.countP mask_done ∧
    (calculate_stats df).notEligible = df.countP mask_fail := by
  refine ⟨?_, ?_, ?_, ?_⟩
  · apply List.countP_congr
    intro r hr
    rw [(stat_eq_mask r (h r hr).1 (h r hr).2).1]
  · apply List.countP_congr
    intro r hr
    rw [(stat_eq_mask r (h r hr).1 (h r hr).2).2.1]
  · apply List.countP_congr
    intro r hr
    rw [(stat_eq_mask r (h r hr).1 (h r hr).2).2.2.1]
  · apply List.countP_congr
    intro r hr
    rw [(stat_eq_mask r (h r hr).1 (h r hr).2).2.2.2]

/-- Witness for the amended C10 on a one-row roster with normalized
cell values. -/
theorem stats_match_masks_witness :
    (calculate_stats [mkRow "Y" "Y" "" ""]).pendingExport =
      [mkRow "Y" "Y" "" ""].countP mask_ready ∧
    (calculate_stats [mkRow "Y" "Y" "" ""]).awaitingCollection =
      [mkRow "Y" "Y" "" ""].countP mask_conf ∧
    (calculate_stats [mkRow "Y" "Y" "" ""]).completed =
      [mkRow "Y" "Y" "" ""].countP mask_done ∧
    (calculate_stats [mkRow "Y" "Y" "" ""]).notEligible =
      [mkRow "Y" "Y" "" ""].countP mask_fail :=
  stats_match_masks [mkRow "Y" "Y" "" ""] (by decide)
